import Mathlib

/-!
Verification development for the bongodb HTTP gateway (src/index.js and the
unnamed sibling entry point, called `part_000` below where they differ).

Shallow embedding conventions:
* A JavaScript/JSON value is a `JVal`; a JS object is an ordered association
  list of string keys (`Obj`), mirroring JS insertion order. JS object
  update-in-place / spread semantics are modelled by `objInsert` / `objSpread`.
* `JSON.stringify` is modelled by `serialize` (strings are assumed to contain
  no characters needing escapes; numbers are modelled as integers).
* The SHA-256/base64 digest `crypto.createHash('sha256')....digest('base64')`
  is modelled abstractly by its preimage (`sha256base64` is the identity on the
  serialized string): equality and inequality of digests then track equality
  of the hashed serializations, which is exactly the collision-free intent of
  a cryptographic hash.
* A route handler is a pure function from the connection registry, the
  collection contents and the request data to `Except Unit result`:
  `.error ()` models a JavaScript exception escaping the handler (for example
  the `TypeError` thrown by destructuring `CONNECTED_CLIENTS[databaseName]`
  when no entry exists), while caught exceptions become ordinary 500 responses
  inside `.ok`.
* The backend document store is modelled as the list of documents of the one
  collection a request touches; `findOne` / `replaceOne` / `deleteOne` act on
  the first matching document, as MongoDB does for a unique `_id`.
-/

/-- A JSON/JavaScript value. Numbers are modelled as integers. -/
inductive JVal where
  | null : JVal
  | bool : Bool → JVal
  | num : Int → JVal
  | str : String → JVal
  | arr : List JVal → JVal
  | obj : List (String × JVal) → JVal

/-- A JavaScript object: keys with values in insertion order. -/
abbrev Obj := List (String × JVal)

/-- First-match lookup of a key, as JS property access reads the (unique) key. -/
def objGet (o : Obj) (k : String) : Option JVal :=
  match o with
  | [] => none
  | kv :: rest => if kv.1 = k then some kv.2 else objGet rest k

/-- JS property assignment/literal-entry semantics: overwrite the existing key
in place (keeping its position) or append a fresh key at the end. -/
def objInsert (o : Obj) (k : String) (v : JVal) : Obj :=
  match o with
  | [] => [(k, v)]
  | kv :: rest => if kv.1 = k then (k, v) :: rest else kv :: objInsert rest k v

/-- JS spread of `b` over `a`: the entries of `b` are assigned into `a` in
order, later assignments winning, as in the literal spread of the source. -/
def objSpread (a b : Obj) : Obj :=
  b.foldl (fun acc kv => objInsert acc kv.1 kv.2) a

/-- A key is "computed" when it starts with an underscore
(`key.startsWith('_')` in `removeComputedProperties`). -/
def keyIsComputed (k : String) : Bool :=
  match k.data with
  | '_' :: _ => true
  | _ => false

/-- From src/index.js lines 33-37 (identical in part_000): keep only the
entries whose key does not start with an underscore. -/
def removeComputedProperties (o : Obj) : Obj :=
  o.filter (fun kv => !(keyIsComputed kv.1))

/-- All keys of the object are non-computed. -/
def noComputedKeys (o : Obj) : Bool :=
  o.all (fun kv => !(keyIsComputed kv.1))

/-- JS truthiness of a value, as used by `req.body._id ? ... : undefined` and
`_lastModified || _createdAt`. -/
def jsTruthy : JVal → Bool
  | .null => false
  | .bool b => b
  | .num n => if n = 0 then false else true
  | .str s => !s.data.isEmpty
  | .arr _ => true
  | .obj _ => true

/-- JS `a || b` over possibly-absent values (`none` models `undefined`). -/
def jsOrVal (a b : Option JVal) : Option JVal :=
  match a with
  | some v => if jsTruthy v then some v else b
  | none => b

mutual

/-- Serialization of a JSON value, as `JSON.stringify` produces it
(strings are assumed escape-free). -/
def serialize : JVal → String
  | .null => "null"
  | .bool b => if b then "true" else "false"
  | .num n => toString n
  | .str s => "\"" ++ s ++ "\""
  | .arr xs => "[" ++ serializeItems xs ++ "]"
  | .obj fs => "\x7b" ++ serializeFields fs ++ "\x7d"

/-- Comma-separated serialization of array elements. -/
def serializeItems : List JVal → String
  | [] => ""
  | [x] => serialize x
  | x :: y :: rest => serialize x ++ "," ++ serializeItems (y :: rest)

/-- Comma-separated serialization of object entries, in insertion order. -/
def serializeFields : List (String × JVal) → String
  | [] => ""
  | [kv] => "\"" ++ kv.1 ++ "\":" ++ serialize kv.2
  | kv :: kv2 :: rest =>
      "\"" ++ kv.1 ++ "\":" ++ serialize kv.2 ++ "," ++ serializeFields (kv2 :: rest)

end

/-- The SHA-256/base64 digest, modelled abstractly by its preimage: the model
identifies a digest with the serialized string that was hashed, so digest
(in)equality tracks (in)equality of the hashed serializations. -/
def sha256base64 (s : String) : String := s

/-- The fingerprint the source computes:
`crypto.createHash('sha256').update(JSON.stringify(o)).digest('base64')`. -/
def fingerprintOf (o : Obj) : String :=
  sha256base64 (serialize (.obj o))

/-- The connection registry `CONNECTED_CLIENTS`: database name to connection
name. An entry always holds a live client, as the source only ever stores
`\x7b client, connectionName \x7d` pairs with a connected client. -/
abbrev Registry := List (String × String)

/-- Property read `CONNECTED_CLIENTS[databaseName]`. -/
def regLookup (registry : Registry) (dbName : String) : Option String :=
  match registry with
  | [] => none
  | e :: rest => if e.1 = dbName then some e.2 else regLookup rest dbName

/-- Models `delete CONNECTED_CLIENTS[databaseName]`. -/
def regRemove (registry : Registry) (dbName : String) : Registry :=
  registry.filter (fun e => !(e.1 = dbName : Bool))

/-- Modelled from the spec: the identifier validator. The external store's
`ObjectId` validity check and throwing constructor are not part of this
repository's source; per the spec the store-native identifier shape is
"24 lower-case hexadecimal characters". -/
def isValidObjectIdShape (s : String) : Bool :=
  s.data.length == 24 &&
    s.data.all (fun c => (48 ≤ c.toNat && c.toNat ≤ 57) || (97 ≤ c.toNat && c.toNat ≤ 102))

/-- Mongo `findOne(\x7b _id \x7d)` match on a stored document: the stored
`_id` (modelled as a string) equals the queried identifier. -/
def idMatches (d : Obj) (rid : String) : Bool :=
  match objGet d "_id" with
  | some (.str s) => s == rid
  | _ => false

/-- Models `findOne(\x7b _id: rid \x7d)`: first matching document. -/
def findFirst (coll : List Obj) (rid : String) : Option Obj :=
  coll.find? (fun d => idMatches d rid)

/-- Models `findOne` with the possibly-undefined resource id of index.js: a query
`\x7b _id: undefined \x7d` matches no stored document (every stored document
carries a store-generated `_id`). -/
def findExisting (coll : List Obj) : Option String → Option Obj
  | none => none
  | some r => findFirst coll r

/-- Models `replaceOne(\x7b _id: rid \x7d, newDoc)`: replace the first match. -/
def replaceFirst (coll : List Obj) (rid : String) (newDoc : Obj) : List Obj :=
  match coll with
  | [] => []
  | d :: rest => if idMatches d rid then newDoc :: rest else d :: replaceFirst rest rid newDoc

/-- Models `deleteOne(\x7b _id: rid \x7d)`: remove the first match. -/
def removeFirst (coll : List Obj) (rid : String) : List Obj :=
  match coll with
  | [] => []
  | d :: rest => if idMatches d rid then rest else d :: removeFirst rest rid

/-- Response of the conditional upsert (PUT) routes: status code, `ETag` and
`Last-Modified` headers, the `_id` of a 201 body, and the collection state
after the request (the backend state the handler leaves behind). -/
structure PutRes where
  status : Nat
  etag : Option String
  lastModified : Option String
  bodyId : Option String
  coll : List Obj

/-- Models `new Date(_lastModified || _createdAt).toISOString()` of the 409
and 412 responses: JS-falsy `_lastModified` falls through to `_createdAt`;
an ISO timestamp string round-trips through `Date` unchanged; `null` is the
Unix epoch; an absent (`undefined`) or non-date value makes the call throw. -/
def lmHeaderStr (doc : Obj) : Except Unit String :=
  match jsOrVal (objGet doc "_lastModified") (objGet doc "_createdAt") with
  | some (.str s) => .ok s
  | some .null => .ok "1970-01-01T00:00:00.000Z"
  | _ => .error ()

/-- index.js line 126: `req.body._id ? new ObjectId(req.body._id) : undefined`.
The `ObjectId` constructor (external) is modelled from the spec as accepting
exactly the store-native identifier shape and throwing otherwise; the throw is
inside the route's `try`, so it surfaces as a 500 response. -/
def getResourceId (body : Obj) : Except Unit (Option String) :=
  match objGet body "_id" with
  | none => .ok none
  | some v =>
    if jsTruthy v then
      match v with
      | .str s => if isValidObjectIdShape s then .ok (some s) else .error ()
      | _ => .error ()
    else .ok none

/-- index.js lines 174-180 / part_000 lines 191-197: the replacement document
`\x7b ...nonComputedResource, ...nonComputedBody, _id, _lastModified: now,
_createdAt \x7d`. A destructured-but-absent `_createdAt` is stored as `null`
(the driver stores an `undefined` property as null). -/
def mkUpdatedDocument (doc body : Obj) (r now : String) : Obj :=
  let base := objSpread (removeComputedProperties doc) (removeComputedProperties body)
  objInsert (objInsert (objInsert base "_id" (.str r))
      "_lastModified" (.str now))
    "_createdAt" ((objGet doc "_createdAt").getD .null)

/-- index.js line 195: `\x7b ...nonComputedBody, _createdAt, _lastModified:
null \x7d`, plus the driver-generated `_id` added by `insertOne`. -/
def mkCreatedDocument (body : Obj) (now freshId : String) : Obj :=
  objInsert (objInsert (objInsert (removeComputedProperties body)
      "_createdAt" (.str now))
    "_lastModified" .null)
  "_id" (.str freshId)

/-- part_000 line 212: `\x7b ...nonComputedPropsRequestBody, _createdAt,
_id: documentId, _lastModified: null \x7d`. -/
def mkCreatedDocumentWithId (body : Obj) (now rid : String) : Obj :=
  objInsert (objInsert (objInsert (removeComputedProperties body)
      "_createdAt" (.str now))
    "_id" (.str rid))
  "_lastModified" .null

/-- The existing-document branch of both PUT routes (index.js lines 143-189,
part_000 lines 160-206): compute the current fingerprint over the stored
document's non-computed fields, reject with 409 when `If-Match` is absent and
412 when it is stale (both carrying the current fingerprint as `ETag` and
leaving the collection untouched), and otherwise replace the document and
answer 204 with an `ETag` hashed over the stripped request body. -/
def upsertExisting (coll : List Obj) (doc body : Obj) (r : String)
    (ifMatch : Option String) (now : String) : PutRes :=
  let currentETag := fingerprintOf (removeComputedProperties doc)
  match ifMatch with
  | none =>
    match lmHeaderStr doc with
    | .ok lm => ⟨409, some currentETag, some lm, none, coll⟩
    | .error _ => ⟨500, none, none, none, coll⟩
  | some t =>
    if t = currentETag then
      ⟨204, some (fingerprintOf (removeComputedProperties body)), some now, none,
        replaceFirst coll r (mkUpdatedDocument doc body r now)⟩
    else
      match lmHeaderStr doc with
      | .ok lm => ⟨412, some currentETag, some lm, none, coll⟩
      | .error _ => ⟨500, none, none, none, coll⟩

/-- The PUT route of src/index.js (lines 121-212). The registry entry is
destructured before the `try`, so a missing entry throws out of the handler
(`.error ()`); the dead `if (!client)` 404 branch of line 129 is unreachable
because a stored entry always holds a client. On the create path the `ETag`
is hashed over the raw request body (line 198), and the insert ignores any
`_id` the body carried (line 195). -/
def putHandler (registry : Registry) (dbName : String) (coll : List Obj)
    (body : Obj) (ifMatch : Option String) (now freshId : String) :
    Except Unit PutRes :=
  match regLookup registry dbName with
  | none => .error ()
  | some _ =>
    match getResourceId body with
    | .error _ => .ok ⟨500, none, none, none, coll⟩
    | .ok rid =>
      match rid, findExisting coll rid with
      | some r, some doc => .ok (upsertExisting coll doc body r ifMatch now)
      | _, _ =>
        .ok ⟨201, some (sha256base64 (serialize (.obj body))), some now, some freshId,
          coll ++ [mkCreatedDocument body now freshId]⟩

/-- The PUT route of part_000 (lines 121-229), which takes the identifier from
the path. The registry entry is destructured first (line 123), so a missing
entry throws; then the stopgap `new ObjectId(mongoId)` `try/catch` answers 400
for a malformed identifier; the create path stores the given identifier and
hashes the raw request body for the `ETag` (line 215). -/
def putByIdHandler (registry : Registry) (dbName : String) (coll : List Obj)
    (mongoId : String) (body : Obj) (ifMatch : Option String) (now : String) :
    Except Unit PutRes :=
  match regLookup registry dbName with
  | none => .error ()
  | some _ =>
    if isValidObjectIdShape mongoId then
      match findFirst coll mongoId with
      | some doc => .ok (upsertExisting coll doc body mongoId ifMatch now)
      | none =>
        .ok ⟨201, some (sha256base64 (serialize (.obj body))), some now, some mongoId,
          coll ++ [mkCreatedDocumentWithId body now mongoId]⟩
    else .ok ⟨400, none, none, none, coll⟩

/-- Leading whitespace skipped by JS `parseInt`. -/
def skipWs : List Char → List Char
  | c :: rest => if c = ' ' || c = '\t' || c = '\n' || c = '\r' then skipWs rest else c :: rest
  | [] => []

/-- Accumulate decimal digits into a natural number. -/
def digitsToNat (acc : Nat) : List Char → Nat
  | [] => acc
  | c :: rest => digitsToNat (acc * 10 + (c.toNat - 48)) rest

/-- The longest leading run of decimal digits; `none` when there is none
(JS `parseInt` yields `NaN` there). -/
def parseIntFrom (cs : List Char) : Option Int :=
  let ds := cs.takeWhile (fun c => 48 ≤ c.toNat && c.toNat ≤ 57)
  if ds.isEmpty then none else some (Int.ofNat (digitsToNat 0 ds))

/-- JS `parseInt(s, 10)`: skip leading whitespace, take an optional sign and
the leading digits; `none` models `NaN`. -/
def jsParseInt (s : String) : Option Int :=
  match skipWs s.data with
  | '-' :: rest => (parseIntFrom rest).map (fun n => -n)
  | '+' :: rest => parseIntFrom rest
  | cs => parseIntFrom cs

/-- Models `parseInt(x, 10) || 0` on a possibly-absent query parameter: an absent
parameter stringifies to no digits, and both `NaN` and `0` are replaced by
`0` by the `||`. -/
def jsParseIntOr0 (arg : Option String) : Int :=
  match arg with
  | none => 0
  | some s =>
    match jsParseInt s with
    | none => 0
    | some n => n

/-- The query/projection/options structure parsed from the `filter` query
parameter (the model assumes the three sub-objects are present, as the
handler's property assignments require). -/
structure FilterConfig where
  query : Obj
  projection : Obj
  options : Obj

/-- Response of the List route: the status and, when a backend `find` was
issued, the configuration passed to it. The result rows themselves are
backend behaviour outside this model. -/
structure ListRes where
  status : Nat
  findCall : Option FilterConfig

/-- The GET collection route (index.js lines 214-253, identical in part_000).
The registry entry is destructured before the `try`, so a missing entry
throws; a present but unparseable `filter` throws inside the `try` and is
answered 500 before any backend call; otherwise `limit` and `skip` are
coerced with `parseInt(x, 10) || 0` and assigned into `config.options`. The
request's `filter` argument carries the result of
`JSON.parse(decodeURIComponent(filter))`, with `.error ()` standing for a
parse throw (the parser itself is a JS built-in outside the source). -/
def listHandler (registry : Registry) (dbName : String)
    (filterArg : Option (Except Unit FilterConfig))
    (limit skip : Option String) : Except Unit ListRes :=
  match regLookup registry dbName with
  | none => .error ()
  | some _ =>
    match filterArg with
    | some (.error _) => .ok ⟨500, none⟩
    | some (.ok cfg) =>
      .ok ⟨200, some ⟨cfg.query, cfg.projection,
        objInsert (objInsert cfg.options "limit" (.num (jsParseIntOr0 limit)))
          "skip" (.num (jsParseIntOr0 skip))⟩⟩
    | none =>
      .ok ⟨200, some ⟨[], [],
        objInsert (objInsert [] "limit" (.num (jsParseIntOr0 limit)))
          "skip" (.num (jsParseIntOr0 skip))⟩⟩

/-- Response of the get-by-id route: `items`/`count` are present only on the
200/404 document answers, not on the 400 validation answer. -/
structure GetRes where
  status : Nat
  items : Option (List Obj)
  count : Option Nat

/-- The GET document route (index.js lines 255-301, part_000 lines 272-318).
The registry entry is destructured before the `try`, so a missing entry
throws; then `ObjectId.isValid` rejects a malformed identifier with 400, and
`findOne` answers 200 with one item or 404 with an empty wrapper. -/
def getByIdHandler (registry : Registry) (dbName : String) (coll : List Obj)
    (mongoId : String) : Except Unit GetRes :=
  match regLookup registry dbName with
  | none => .error ()
  | some _ =>
    if isValidObjectIdShape mongoId then
      match findFirst coll mongoId with
      | some doc => .ok ⟨200, some [doc], some 1⟩
      | none => .ok ⟨404, some [], some 0⟩
    else .ok ⟨400, none, none⟩

/-- Response of the delete-by-id route: status plus the collection left
behind. -/
structure DeleteRes where
  status : Nat
  coll : List Obj

/-- The DELETE document route (part_000 lines 320-372). The registry entry is
destructured first, so a missing entry throws; the stopgap
`new ObjectId(mongoId)` `try/catch` answers 400 for a malformed identifier;
`deleteOne` then removes the first match unconditionally — the handler never
reads the `If-Match` header (the parameter is ignored, as the source ignores
`req.headers`). -/
def deleteByIdHandler (registry : Registry) (dbName : String) (coll : List Obj)
    (mongoId : String) (_ifMatch : Option String) : Except Unit DeleteRes :=
  match regLookup registry dbName with
  | none => .error ()
  | some _ =>
    if isValidObjectIdShape mongoId then
      match findFirst coll mongoId with
      | none => .ok ⟨404, coll⟩
      | some _ => .ok ⟨204, removeFirst coll mongoId⟩
    else .ok ⟨400, coll⟩

/-- Response of the disconnect route: status plus the registry left behind. -/
structure DiscRes where
  status : Nat
  registry : Registry

/-- The DELETE database route (index.js lines 79-118, identical in part_000).
After the emptiness check, the registry entry is destructured (line 90)
before the `if (!client)` 404 branch, so a missing entry throws out of the
handler; an existing entry is closed and removed (the close itself is
backend behaviour modelled as succeeding). -/
def disconnectHandler (registry : Registry) (dbName : String) :
    Except Unit DiscRes :=
  if dbName = "" then .ok ⟨400, registry⟩
  else
    match regLookup registry dbName with
    | none => .error ()
    | some _ => .ok ⟨200, regRemove registry dbName⟩

theorem objGet_objInsert (o : Obj) (k k2 : String) (v : JVal) :
    objGet (objInsert o k v) k2 = if k2 = k then some v else objGet o k2 := by
  induction o with
  | nil =>
    show (if k = k2 then some v else none) = if k2 = k then some v else none
    by_cases h : k2 = k
    · rw [if_pos h.symm, if_pos h]
    · rw [if_neg (fun e => h e.symm), if_neg h]
  | cons kv rest ih =>
    by_cases hk : kv.1 = k
    · simp only [objInsert, if_pos hk, objGet]
      by_cases h2 : k2 = k
      · rw [if_pos h2.symm, if_pos h2]
      · rw [if_neg (fun e => h2 e.symm), if_neg h2, if_neg (fun e => h2 (e.symm.trans hk))]
    · simp only [objInsert, if_neg hk, objGet]
      by_cases h3 : kv.1 = k2
      · rw [if_pos h3, if_pos h3, if_neg (fun e => hk (h3.trans e))]
      · rw [if_neg h3, if_neg h3, ih]

theorem objSpread_cons (a : Obj) (kv : String × JVal) (rest : Obj) :
    objSpread a (kv :: rest) = objSpread (objInsert a kv.1 kv.2) rest := rfl

theorem objGet_objSpread_absent (a b : Obj) (k : String)
    (h : ∀ kv ∈ b, kv.1 ≠ k) :
    objGet (objSpread a b) k = objGet a k := by
  induction b generalizing a with
  | nil => rfl
  | cons kv rest ih =>
    rw [objSpread_cons, ih _ (fun x hx => h x (List.mem_cons_of_mem _ hx)),
        objGet_objInsert]
    exact if_neg (fun e => h kv (List.mem_cons_self _ _) e.symm)

theorem objGet_objSpread_right (a b : Obj) (k : String) (v : JVal)
    (hnd : (b.map Prod.fst).Nodup) (h : objGet b k = some v) :
    objGet (objSpread a b) k = some v := by
  induction b generalizing a with
  | nil => simp [objGet] at h
  | cons kv rest ih =>
    rw [List.map_cons, List.nodup_cons] at hnd
    rw [objSpread_cons]
    by_cases hk : kv.1 = k
    · have hv : kv.2 = v := by simpa [objGet, hk] using h
      subst hv
      have habs : ∀ kv2 ∈ rest, kv2.1 ≠ k := by
        intro kv2 hm heq
        exact hnd.1 (by rw [hk, ← heq]; exact List.mem_map_of_mem Prod.fst hm)
      rw [objGet_objSpread_absent _ _ _ habs, objGet_objInsert, if_pos hk.symm]
    · have h' : objGet rest k = some v := by simpa [objGet, hk] using h
      exact ih _ hnd.2 h'

theorem strip_objInsert_computed (o : Obj) (k : String) (v : JVal)
    (hk : keyIsComputed k = true) :
    removeComputedProperties (objInsert o k v) = removeComputedProperties o := by
  induction o with
  | nil => simp [objInsert, removeComputedProperties, List.filter_cons, hk]
  | cons kv rest ih =>
    simp only [removeComputedProperties] at ih ⊢
    by_cases h : kv.1 = k
    · simp [objInsert, if_pos h, List.filter_cons, h, hk]
    · simp only [objInsert, if_neg h, List.filter_cons]
      rw [ih]

theorem strip_eq_self (o : Obj) (h : noComputedKeys o = true) :
    removeComputedProperties o = o := by
  rw [removeComputedProperties, List.filter_eq_self]
  intro kv hm
  rw [noComputedKeys, List.all_eq_true] at h
  exact h kv hm

theorem noComputedKeys_strip (o : Obj) :
    noComputedKeys (removeComputedProperties o) = true := by
  rw [noComputedKeys, List.all_eq_true]
  intro kv hm
  exact (List.mem_filter.mp hm).2

theorem mem_objInsert (o : Obj) (k : String) (v : JVal) (x : String × JVal)
    (hm : x ∈ objInsert o k v) : x = (k, v) ∨ x ∈ o := by
  induction o with
  | nil => exact Or.inl (by simpa [objInsert] using hm)
  | cons kv rest ih =>
    by_cases h : kv.1 = k
    · rw [objInsert, if_pos h] at hm
      rcases List.mem_cons.mp hm with h1 | h2
      · exact Or.inl h1
      · exact Or.inr (List.mem_cons_of_mem _ h2)
    · rw [objInsert, if_neg h] at hm
      rcases List.mem_cons.mp hm with h1 | h2
      · exact Or.inr (h1 ▸ List.mem_cons_self _ _)
      · rcases ih h2 with ha | hb
        · exact Or.inl ha
        · exact Or.inr (List.mem_cons_of_mem _ hb)

theorem noComputedKeys_objInsert (o : Obj) (k : String) (v : JVal)
    (ho : noComputedKeys o = true) (hk : keyIsComputed k = false) :
    noComputedKeys (objInsert o k v) = true := by
  rw [noComputedKeys, List.all_eq_true]
  intro kv hm
  rcases mem_objInsert o k v kv hm with h1 | h2
  · subst h1; simpa using hk
  · rw [noComputedKeys, List.all_eq_true] at ho
    exact ho kv h2

theorem noComputedKeys_objSpread (a b : Obj) (ha : noComputedKeys a = true)
    (hb : noComputedKeys b = true) : noComputedKeys (objSpread a b) = true := by
  induction b generalizing a with
  | nil => exact ha
  | cons kv rest ih =>
    rw [noComputedKeys, List.all_cons, Bool.and_eq_true] at hb
    rw [objSpread_cons]
    exact ih _ (noComputedKeys_objInsert a kv.1 kv.2 ha (by simpa using hb.1)) hb.2

theorem strip_mkUpdatedDocument (doc body : Obj) (r now : String) :
    removeComputedProperties (mkUpdatedDocument doc body r now)
      = objSpread (removeComputedProperties doc) (removeComputedProperties body) := by
  unfold mkUpdatedDocument
  rw [strip_objInsert_computed _ _ _ (by decide),
      strip_objInsert_computed _ _ _ (by decide),
      strip_objInsert_computed _ _ _ (by decide)]
  exact strip_eq_self _
    (noComputedKeys_objSpread _ _ (noComputedKeys_strip _) (noComputedKeys_strip _))

theorem idMatches_objGet (d : Obj) (r : String) (h : idMatches d r = true) :
    objGet d "_id" = some (.str r) := by
  unfold idMatches at h
  cases hg : objGet d "_id" with
  | none => rw [hg] at h; simp at h
  | some v =>
    cases v <;> rw [hg] at h <;> simp at h
    subst h; rfl

theorem findFirst_idMatches (coll : List Obj) (r : String) (doc : Obj)
    (h : findFirst coll r = some doc) : idMatches doc r = true := by
  unfold findFirst at h
  have h2 := List.find?_some h
  exact h2

theorem putHandler_existing {registry : Registry} {dbName conn : String}
    {coll : List Obj} {body doc : Obj} {r : String} (ifMatch : Option String)
    (now freshId : String)
    (hreg : regLookup registry dbName = some conn)
    (hrid : getResourceId body = .ok (some r))
    (hfind : findFirst coll r = some doc) :
    putHandler registry dbName coll body ifMatch now freshId
      = .ok (upsertExisting coll doc body r ifMatch now) := by
  unfold putHandler
  rw [hreg, hrid]
  simp [findExisting, hfind]

/-- Shared: the successful conditional-update path of the index.js PUT route
answers 204 with an `ETag` hashed over the stripped request body and the
document replaced by `mkUpdatedDocument`. -/
theorem putHandler_update_204 {registry : Registry} {dbName conn : String}
    {coll : List Obj} {body doc : Obj} {r : String} (now freshId : String)
    (hreg : regLookup registry dbName = some conn)
    (hrid : getResourceId body = .ok (some r))
    (hfind : findFirst coll r = some doc) :
    putHandler registry dbName coll body
        (some (fingerprintOf (removeComputedProperties doc))) now freshId
      = .ok ⟨204, some (fingerprintOf (removeComputedProperties body)), some now, none,
          replaceFirst coll r (mkUpdatedDocument doc body r now)⟩ := by
  rw [putHandler_existing _ now freshId hreg hrid hfind]
  unfold upsertExisting
  simp

/-- C1 (counterexample): for the request body with fields `_x = 1, a = 2` on
an empty collection of a connected database, the create path answers 201 but
its `ETag` is not the fingerprint of the stripped body — the raw body
(including the computed-looking `_x`) is hashed instead. -/
theorem C1_counterexample :
    (putHandler [("db", "conn")] "db" [] [("_x", JVal.num 1), ("a", JVal.num 2)]
        none "2024-01-01T00:00:00.000Z" "ffffffffffffffffffffffff").toOption.map PutRes.status
      = some 201
    ∧ (putHandler [("db", "conn")] "db" [] [("_x", JVal.num 1), ("a", JVal.num 2)]
        none "2024-01-01T00:00:00.000Z" "ffffffffffffffffffffffff").toOption.map PutRes.etag
      ≠ some (some (fingerprintOf (removeComputedProperties
          [("_x", JVal.num 1), ("a", JVal.num 2)]))) :=
  ⟨by decide, by decide⟩

/-- C1 (amended): on the create path of Upsert the `ETag` of the 201 response
is the fingerprint computed over the raw request body (underscore-prefixed
fields included), for every request body; it coincides with the
stripped-body fingerprint exactly on bodies with no computed fields. -/
theorem C1_create_etag_raw_body (registry : Registry) (dbName conn : String)
    (coll : List Obj) (body : Obj) (ifMatch : Option String) (now freshId : String)
    (hreg : regLookup registry dbName = some conn)
    (hnoid : objGet body "_id" = none) :
    putHandler registry dbName coll body ifMatch now freshId
      = .ok ⟨201, some (sha256base64 (serialize (.obj body))), some now, some freshId,
          coll ++ [mkCreatedDocument body now freshId]⟩
    ∧ (noComputedKeys body = true →
        sha256base64 (serialize (.obj body))
          = fingerprintOf (removeComputedProperties body)) := by
  constructor
  · have hrid : getResourceId body = .ok none := by
      unfold getResourceId
      rw [hnoid]
    unfold putHandler
    rw [hreg, hrid]
  · intro hnc
    rw [fingerprintOf, strip_eq_self body hnc]

/-- C1 (witness): the amended create-path theorem at a concrete connected
registry, empty collection and the body `a = 2`. -/
theorem C1_create_etag_raw_body_witness :
    regLookup [("db", "conn")] "db" = some "conn"
    ∧ objGet [("a", JVal.num 2)] "_id" = none
    ∧ (putHandler [("db", "conn")] "db" [] [("a", JVal.num 2)] none "T1"
          "ffffffffffffffffffffffff"
        = .ok ⟨201, some (sha256base64 (serialize (.obj [("a", JVal.num 2)]))), some "T1",
            some "ffffffffffffffffffffffff",
            [] ++ [mkCreatedDocument [("a", JVal.num 2)] "T1" "ffffffffffffffffffffffff"]⟩
      ∧ (noComputedKeys [("a", JVal.num 2)] = true →
          sha256base64 (serialize (.obj [("a", JVal.num 2)]))
            = fingerprintOf (removeComputedProperties [("a", JVal.num 2)]))) :=
  ⟨rfl, rfl,
    C1_create_etag_raw_body [("db", "conn")] "db" "conn" [] [("a", JVal.num 2)] none "T1"
      "ffffffffffffffffffffffff" rfl rfl⟩

/-- The stored document of the C2 counterexample: non-computed fields
`a = 1, b = 2`. -/
def c2Doc : Obj :=
  [("_id", JVal.str "0123456789abcdef01234567"), ("_createdAt", JVal.str "T0"),
   ("a", JVal.num 1), ("b", JVal.num 2)]

/-- The request body of the C2 counterexample: only the field `a = 3`. -/
def c2Body : Obj :=
  [("_id", JVal.str "0123456789abcdef01234567"), ("a", JVal.num 3)]

/-- The C2 counterexample request: a conditional update of `c2Doc` with
`If-Match` equal to the stored fingerprint. -/
def c2Res : Except Unit PutRes :=
  putHandler [("db", "conn")] "db" [c2Doc] c2Body
    (some (fingerprintOf (removeComputedProperties c2Doc))) "T1" "ffffffffffffffffffffffff"

/-- The document that replaces `c2Doc` in the C2 counterexample. -/
def c2Updated : Obj :=
  mkUpdatedDocument c2Doc c2Body "0123456789abcdef01234567" "T1"

/-- C2 (counterexample): updating the stored document with fields
`a = 1, b = 2` by the body `a = 3` under a matching `If-Match` succeeds with
204 and stores the merged document with fields `a = 3, b = 2`, but the
response `ETag` is not the fingerprint of that replaced document's
non-computed fields — only the stripped request body `a = 3` is hashed. -/
theorem C2_counterexample :
    c2Res.toOption.map PutRes.status = some 204
    ∧ c2Res.toOption.map PutRes.coll = some [c2Updated]
    ∧ removeComputedProperties c2Updated = [("a", JVal.num 3), ("b", JVal.num 2)]
    ∧ c2Res.toOption.map PutRes.etag
      ≠ some (some (fingerprintOf (removeComputedProperties c2Updated))) :=
  ⟨by decide, rfl, rfl, by decide⟩

/-- C2 (amended): on the successful conditional-update path the `ETag` of the
204 response is the fingerprint computed over the stripped request body
alone, not over the merged non-computed fields of the replaced document. -/
theorem C2_update_etag_stripped_body (registry : Registry) (dbName conn : String)
    (coll : List Obj) (body doc : Obj) (r now freshId : String)
    (hreg : regLookup registry dbName = some conn)
    (hrid : getResourceId body = .ok (some r))
    (hfind : findFirst coll r = some doc) :
    putHandler registry dbName coll body
        (some (fingerprintOf (removeComputedProperties doc))) now freshId
      = .ok ⟨204, some (fingerprintOf (removeComputedProperties body)), some now, none,
          replaceFirst coll r (mkUpdatedDocument doc body r now)⟩ :=
  putHandler_update_204 now freshId hreg hrid hfind

/-- C2 (witness): the amended update-path theorem at the concrete stored
document and body of the counterexample. -/
theorem C2_update_etag_stripped_body_witness :
    regLookup [("db", "conn")] "db" = some "conn"
    ∧ getResourceId c2Body = .ok (some "0123456789abcdef01234567")
    ∧ findFirst [c2Doc] "0123456789abcdef01234567" = some c2Doc
    ∧ putHandler [("db", "conn")] "db" [c2Doc] c2Body
          (some (fingerprintOf (removeComputedProperties c2Doc))) "T1" "f"
        = .ok ⟨204, some (fingerprintOf (removeComputedProperties c2Body)), some "T1", none,
            replaceFirst [c2Doc] "0123456789abcdef01234567"
              (mkUpdatedDocument c2Doc c2Body "0123456789abcdef01234567" "T1")⟩ :=
  ⟨rfl, rfl, rfl,
    C2_update_etag_stripped_body [("db", "conn")] "db" "conn" [c2Doc] c2Body c2Doc
      "0123456789abcdef01234567" "T1" "f" rfl rfl rfl⟩

/-- C3 (counterexample): two stored documents whose non-computed fields agree
as key-value maps but were inserted in different orders produce different
fingerprints — key order is not canonicalized before hashing. -/
theorem C3_counterexample :
    (∀ k, objGet (removeComputedProperties
          [("_id", JVal.str "d1"), ("a", JVal.num 1), ("b", JVal.num 2)]) k
        = objGet (removeComputedProperties
          [("_id", JVal.str "d2"), ("b", JVal.num 2), ("a", JVal.num 1)]) k)
    ∧ fingerprintOf (removeComputedProperties
          [("_id", JVal.str "d1"), ("a", JVal.num 1), ("b", JVal.num 2)])
      ≠ fingerprintOf (removeComputedProperties
          [("_id", JVal.str "d2"), ("b", JVal.num 2), ("a", JVal.num 1)]) := by
  constructor
  · intro k
    by_cases h1 : k = "a"
    · subst h1; rfl
    · by_cases h2 : k = "b"
      · subst h2; rfl
      · have ha : ¬("a" = k) := fun e => h1 e.symm
        have hb : ¬("b" = k) := fun e => h2 e.symm
        show objGet [("a", JVal.num 1), ("b", JVal.num 2)] k
          = objGet [("b", JVal.num 2), ("a", JVal.num 1)] k
        simp [objGet, ha, hb]
  · decide

/-- C3 (amended): the fingerprint is deterministic over the sequence of
non-computed fields — documents whose stripped field lists agree (same keys
in the same order, same values) hash identically, and mutating a computed
(underscore-prefixed) field never changes the fingerprint — but key order is
taken from insertion order, not canonicalized, so equal field sets in
different orders may hash differently. -/
theorem C3_fingerprint_order_and_computed_insensitivity
    (d1 d2 o : Obj) (k : String) (v : JVal)
    (hsame : removeComputedProperties d1 = removeComputedProperties d2)
    (hk : keyIsComputed k = true) :
    fingerprintOf (removeComputedProperties d1)
      = fingerprintOf (removeComputedProperties d2)
    ∧ fingerprintOf (removeComputedProperties (objInsert o k v))
      = fingerprintOf (removeComputedProperties o) :=
  ⟨by rw [hsame], by rw [strip_objInsert_computed o k v hk]⟩

/-- C3 (witness): the amended fingerprint theorem at two concrete documents
with equal stripped field lists, mutating the computed `_lastModified`. -/
theorem C3_fingerprint_witness :
    removeComputedProperties [("_x", JVal.null), ("a", JVal.num 1)]
      = removeComputedProperties [("a", JVal.num 1)]
    ∧ keyIsComputed "_lastModified" = true
    ∧ (fingerprintOf (removeComputedProperties [("_x", JVal.null), ("a", JVal.num 1)])
        = fingerprintOf (removeComputedProperties [("a", JVal.num 1)])
      ∧ fingerprintOf (removeComputedProperties
            (objInsert [("a", JVal.num 1)] "_lastModified" (JVal.str "T9")))
        = fingerprintOf (removeComputedProperties [("a", JVal.num 1)])) :=
  ⟨rfl, rfl,
    C3_fingerprint_order_and_computed_insensitivity
      [("_x", JVal.null), ("a", JVal.num 1)] [("a", JVal.num 1)] [("a", JVal.num 1)]
      "_lastModified" (JVal.str "T9") rfl rfl⟩

/-- C4: on an existing document, a missing `If-Match` header is answered 409
Conflict and a stale one 412 Precondition Failed, both carrying an `ETag`
equal to the fingerprint of the stored document's non-computed fields and
leaving the collection (the backend state) completely unchanged. -/
theorem C4_conflict_and_precondition (registry : Registry) (dbName conn : String)
    (coll : List Obj) (body doc : Obj) (r now freshId lm : String)
    (hreg : regLookup registry dbName = some conn)
    (hrid : getResourceId body = .ok (some r))
    (hfind : findFirst coll r = some doc)
    (hlm : lmHeaderStr doc = .ok lm) :
    putHandler registry dbName coll body none now freshId
      = .ok ⟨409, some (fingerprintOf (removeComputedProperties doc)), some lm, none, coll⟩
    ∧ (∀ t, t ≠ fingerprintOf (removeComputedProperties doc) →
        putHandler registry dbName coll body (some t) now freshId
          = .ok ⟨412, some (fingerprintOf (removeComputedProperties doc)), some lm, none,
              coll⟩) := by
  constructor
  · rw [putHandler_existing none now freshId hreg hrid hfind]
    unfold upsertExisting
    dsimp only
    rw [hlm]
  · intro t ht
    rw [putHandler_existing (some t) now freshId hreg hrid hfind]
    unfold upsertExisting
    dsimp only
    rw [if_neg ht, hlm]

/-- C4 (witness): the conflict/precondition theorem at the concrete stored
document with fields `a = 1, b = 2`, with the stale tag `"stale"`. -/
theorem C4_conflict_and_precondition_witness :
    regLookup [("db", "conn")] "db" = some "conn"
    ∧ getResourceId c2Body = .ok (some "0123456789abcdef01234567")
    ∧ findFirst [c2Doc] "0123456789abcdef01234567" = some c2Doc
    ∧ lmHeaderStr c2Doc = .ok "T0"
    ∧ "stale" ≠ fingerprintOf (removeComputedProperties c2Doc)
    ∧ putHandler [("db", "conn")] "db" [c2Doc] c2Body none "T1" "f"
        = .ok ⟨409, some (fingerprintOf (removeComputedProperties c2Doc)), some "T0", none,
            [c2Doc]⟩
    ∧ putHandler [("db", "conn")] "db" [c2Doc] c2Body (some "stale") "T1" "f"
        = .ok ⟨412, some (fingerprintOf (removeComputedProperties c2Doc)), some "T0", none,
            [c2Doc]⟩ :=
  ⟨rfl, rfl, rfl, rfl, by decide,
    (C4_conflict_and_precondition [("db", "conn")] "db" "conn" [c2Doc] c2Body c2Doc
      "0123456789abcdef01234567" "T1" "f" "T0" rfl rfl rfl rfl).1,
    (C4_conflict_and_precondition [("db", "conn")] "db" "conn" [c2Doc] c2Body c2Doc
      "0123456789abcdef01234567" "T1" "f" "T0" rfl rfl rfl rfl).2 "stale" (by decide)⟩

/-- C5: against a database name with no registry entry, the Upsert (both
variants), List, GetById, DeleteById and Disconnect handlers all destructure
the missing entry and throw a TypeError out of the handler (`.error ()`)
instead of producing the 404 NotFound response their dead `!client` branches
intend — evaluated at a never-connected database name. -/
theorem C5_no_connection_throws :
    putHandler [] "mydb" [] [] none "T1" "ffffffffffffffffffffffff" = .error ()
    ∧ putByIdHandler [] "mydb" [] "0123456789abcdef01234567" [] none "T1" = .error ()
    ∧ listHandler [] "mydb" none none none = .error ()
    ∧ getByIdHandler [] "mydb" [] "0123456789abcdef01234567" = .error ()
    ∧ deleteByIdHandler [] "mydb" [] "0123456789abcdef01234567" none = .error ()
    ∧ disconnectHandler [] "mydb" = .error () :=
  ⟨rfl, rfl, rfl, rfl, rfl, rfl⟩

/-- C6: a successful conditional update preserves the stored document's `_id`
and `_createdAt`, sets `_lastModified` to the update time, and replaces the
non-computed fields with the spread of the stripped request body over the
stored non-computed fields, request values winning on every key collision. -/
theorem C6_update_frame (registry : Registry) (dbName conn : String)
    (coll : List Obj) (body doc : Obj) (r now freshId : String) (c : JVal)
    (hreg : regLookup registry dbName = some conn)
    (hrid : getResourceId body = .ok (some r))
    (hfind : findFirst coll r = some doc)
    (hc : objGet doc "_createdAt" = some c)
    (hnd : ((removeComputedProperties body).map Prod.fst).Nodup) :
    putHandler registry dbName coll body
        (some (fingerprintOf (removeComputedProperties doc))) now freshId
      = .ok ⟨204, some (fingerprintOf (removeComputedProperties body)), some now, none,
          replaceFirst coll r (mkUpdatedDocument doc body r now)⟩
    ∧ objGet (mkUpdatedDocument doc body r now) "_id" = objGet doc "_id"
    ∧ objGet (mkUpdatedDocument doc body r now) "_createdAt" = some c
    ∧ objGet (mkUpdatedDocument doc body r now) "_lastModified" = some (.str now)
    ∧ removeComputedProperties (mkUpdatedDocument doc body r now)
        = objSpread (removeComputedProperties doc) (removeComputedProperties body)
    ∧ (∀ k v, objGet (removeComputedProperties body) k = some v →
        objGet (objSpread (removeComputedProperties doc) (removeComputedProperties body)) k
          = some v) := by
  have hid : objGet doc "_id" = some (.str r) :=
    idMatches_objGet doc r (findFirst_idMatches coll r doc hfind)
  refine ⟨putHandler_update_204 now freshId hreg hrid hfind, ?_, ?_, ?_,
    strip_mkUpdatedDocument doc body r now, fun k v h => objGet_objSpread_right _ _ _ _ hnd h⟩
  · unfold mkUpdatedDocument
    rw [objGet_objInsert, if_neg (by decide), objGet_objInsert, if_neg (by decide),
        objGet_objInsert, if_pos rfl, hid]
  · unfold mkUpdatedDocument
    rw [objGet_objInsert, if_pos rfl, hc]
    rfl
  · unfold mkUpdatedDocument
    rw [objGet_objInsert, if_neg (by decide), objGet_objInsert, if_pos rfl]

/-- C6 (witness): the update-frame theorem at the concrete stored document
with fields `a = 1, b = 2` updated by the body `a = 3`. -/
theorem C6_update_frame_witness :
    regLookup [("db", "conn")] "db" = some "conn"
    ∧ getResourceId c2Body = .ok (some "0123456789abcdef01234567")
    ∧ findFirst [c2Doc] "0123456789abcdef01234567" = some c2Doc
    ∧ objGet c2Doc "_createdAt" = some (JVal.str "T0")
    ∧ ((removeComputedProperties c2Body).map Prod.fst).Nodup
    ∧ (objGet (mkUpdatedDocument c2Doc c2Body "0123456789abcdef01234567" "T1") "_id"
        = objGet c2Doc "_id"
      ∧ objGet (mkUpdatedDocument c2Doc c2Body "0123456789abcdef01234567" "T1") "_createdAt"
        = some (JVal.str "T0")
      ∧ objGet (mkUpdatedDocument c2Doc c2Body "0123456789abcdef01234567" "T1") "_lastModified"
        = some (.str "T1")) :=
  ⟨rfl, rfl, rfl, rfl, by decide,
    (C6_update_frame [("db", "conn")] "db" "conn" [c2Doc] c2Body c2Doc
        "0123456789abcdef01234567" "T1" "f" (JVal.str "T0") rfl rfl rfl rfl
        (by decide)).2.1,
    (C6_update_frame [("db", "conn")] "db" "conn" [c2Doc] c2Body c2Doc
        "0123456789abcdef01234567" "T1" "f" (JVal.str "T0") rfl rfl rfl rfl
        (by decide)).2.2.1,
    (C6_update_frame [("db", "conn")] "db" "conn" [c2Doc] c2Body c2Doc
        "0123456789abcdef01234567" "T1" "f" (JVal.str "T0") rfl rfl rfl rfl
        (by decide)).2.2.2.1⟩

/-- Shared: whatever the `If-Match` header and document, the
existing-document branch of the PUT routes only answers 409, 412, 204 or 500
— never the 400 validation status. -/
theorem upsertExisting_status_ne_400 (coll : List Obj) (doc body : Obj)
    (r : String) (ifMatch : Option String) (now : String) :
    (upsertExisting coll doc body r ifMatch now).status ≠ 400 := by
  unfold upsertExisting
  cases ifMatch with
  | none =>
    cases h : lmHeaderStr doc with
    | ok lm => dsimp only; decide
    | error e => dsimp only; decide
  | some t =>
    by_cases ht : t = fingerprintOf (removeComputedProperties doc)
    · dsimp only; rw [if_pos ht]; dsimp only; decide
    · dsimp only; rw [if_neg ht]
      cases h : lmHeaderStr doc with
      | ok lm => dsimp only; decide
      | error e => dsimp only; decide

/-- C7: with a live connection, the identifier validation of GetById,
Upsert-with-id and DeleteById rejects exactly the raw identifiers outside
the 24-lower-case-hex shape with 400 (leaving the collection unchanged), and
accepts every identifier of that shape (no 400 is ever produced for them).
The shape itself is modelled from the spec, the `ObjectId` implementation
being external to the repository. -/
theorem C7_identifier_validation (registry : Registry) (dbName conn : String)
    (coll : List Obj) (body : Obj) (ifMatch : Option String) (now rawId : String)
    (hreg : regLookup registry dbName = some conn) :
    (isValidObjectIdShape rawId = false →
        getByIdHandler registry dbName coll rawId = .ok ⟨400, none, none⟩
      ∧ putByIdHandler registry dbName coll rawId body ifMatch now
          = .ok ⟨400, none, none, none, coll⟩
      ∧ deleteByIdHandler registry dbName coll rawId ifMatch = .ok ⟨400, coll⟩)
    ∧ (isValidObjectIdShape rawId = true →
        (∀ res, getByIdHandler registry dbName coll rawId = .ok res → res.status ≠ 400)
      ∧ (∀ res, putByIdHandler registry dbName coll rawId body ifMatch now = .ok res →
          res.status ≠ 400)
      ∧ (∀ res, deleteByIdHandler registry dbName coll rawId ifMatch = .ok res →
          res.status ≠ 400)) := by
  constructor
  · intro hv
    refine ⟨?_, ?_, ?_⟩
    · simp [getByIdHandler, hreg, hv]
    · simp [putByIdHandler, hreg, hv]
    · simp [deleteByIdHandler, hreg, hv]
  · intro hv
    refine ⟨?_, ?_, ?_⟩
    · intro res hres
      rw [getByIdHandler, hreg] at hres
      dsimp only at hres
      rw [hv] at hres
      cases hf : findFirst coll rawId with
      | some d =>
        rw [hf] at hres
        simp at hres
        rw [← hres]
        dsimp only
        decide
      | none =>
        rw [hf] at hres
        simp at hres
        rw [← hres]
        dsimp only
        decide
    · intro res hres
      rw [putByIdHandler, hreg] at hres
      dsimp only at hres
      rw [hv] at hres
      cases hf : findFirst coll rawId with
      | some d =>
        rw [hf] at hres
        simp at hres
        rw [← hres]
        exact upsertExisting_status_ne_400 coll d body rawId ifMatch now
      | none =>
        rw [hf] at hres
        simp at hres
        rw [← hres]
        dsimp only
        decide
    · intro res hres
      rw [deleteByIdHandler, hreg] at hres
      dsimp only at hres
      rw [hv] at hres
      cases hf : findFirst coll rawId with
      | some d =>
        rw [hf] at hres
        simp at hres
        rw [← hres]
        dsimp only
        decide
      | none =>
        rw [hf] at hres
        simp at hres
        rw [← hres]
        dsimp only
        decide

/-- C7 (witness): the identifier-validation theorem at the malformed
identifier `"not-an-id"` (400 on all three routes of a connected database)
and, on the same instantiation, the valid identifier branch vacuously
available. -/
theorem C7_identifier_validation_witness :
    regLookup [("db", "conn")] "db" = some "conn"
    ∧ isValidObjectIdShape "not-an-id" = false
    ∧ (getByIdHandler [("db", "conn")] "db" [] "not-an-id" = .ok ⟨400, none, none⟩
      ∧ putByIdHandler [("db", "conn")] "db" [] "not-an-id" [] none "T1"
          = .ok ⟨400, none, none, none, []⟩
      ∧ deleteByIdHandler [("db", "conn")] "db" [] "not-an-id" none = .ok ⟨400, []⟩) :=
  ⟨rfl, by decide,
    (C7_identifier_validation [("db", "conn")] "db" "conn" [] [] none "T1" "not-an-id"
      rfl).1 (by decide)⟩

/-- C8: on a connected database with a well-formed identifier, DeleteById
answers 404 and leaves the collection unchanged when no document matches,
answers 204 and removes the first match otherwise, and its outcome is
independent of any `If-Match` header — deletion is unconditional. -/
theorem C8_delete_unconditional (registry : Registry) (dbName conn : String)
    (coll : List Obj) (rawId : String)
    (hreg : regLookup registry dbName = some conn)
    (hvalid : isValidObjectIdShape rawId = true) :
    (findFirst coll rawId = none →
      ∀ im, deleteByIdHandler registry dbName coll rawId im = .ok ⟨404, coll⟩)
    ∧ (∀ doc, findFirst coll rawId = some doc →
      ∀ im, deleteByIdHandler registry dbName coll rawId im
        = .ok ⟨204, removeFirst coll rawId⟩)
    ∧ (∀ im1 im2, deleteByIdHandler registry dbName coll rawId im1
        = deleteByIdHandler registry dbName coll rawId im2) := by
  refine ⟨?_, ?_, fun im1 im2 => rfl⟩
  · intro hf im
    simp [deleteByIdHandler, hreg, hvalid, hf]
  · intro doc hf im
    simp [deleteByIdHandler, hreg, hvalid, hf]

/-- C8 (witness): the delete theorem at a one-document collection — the
matching delete answers 204 and empties the collection. -/
theorem C8_delete_unconditional_witness :
    regLookup [("db", "conn")] "db" = some "conn"
    ∧ isValidObjectIdShape "0123456789abcdef01234567" = true
    ∧ findFirst [c2Doc] "0123456789abcdef01234567" = some c2Doc
    ∧ deleteByIdHandler [("db", "conn")] "db" [c2Doc] "0123456789abcdef01234567" none
        = .ok ⟨204, removeFirst [c2Doc] "0123456789abcdef01234567"⟩ :=
  ⟨rfl, by decide, rfl,
    (C8_delete_unconditional [("db", "conn")] "db" "conn" [c2Doc]
      "0123456789abcdef01234567" rfl (by decide)).2.1 c2Doc rfl none⟩

/-- C9 (counterexample): a List request with `limit=-5` on a connected
database passes the negative value `-5` straight into the backend query
options — the coercion is not to non-negative integers. -/
theorem C9_counterexample :
    listHandler [("db", "conn")] "db" none (some "-5") none
      = .ok ⟨200, some ⟨[], [], [("limit", JVal.num (-5)), ("skip", JVal.num 0)]⟩⟩
    ∧ jsParseIntOr0 (some "-5") < 0 :=
  ⟨rfl, by decide⟩

/-- C9 (amended): for every List request the `limit` and `skip` parameters
are coerced with `parseInt(x, 10) || 0` — an integer, with 0 when the
parameter is absent, unparseable or zero — and assigned into the backend
query options; negative values pass through unclamped. -/
theorem C9_limit_skip_coercion (registry : Registry) (dbName conn : String)
    (limit skip : Option String) (cfg : FilterConfig)
    (hreg : regLookup registry dbName = some conn) :
    listHandler registry dbName none limit skip
      = .ok ⟨200, some ⟨[], [],
          objInsert (objInsert [] "limit" (.num (jsParseIntOr0 limit))) "skip"
            (.num (jsParseIntOr0 skip))⟩⟩
    ∧ listHandler registry dbName (some (.ok cfg)) limit skip
      = .ok ⟨200, some ⟨cfg.query, cfg.projection,
          objInsert (objInsert cfg.options "limit" (.num (jsParseIntOr0 limit))) "skip"
            (.num (jsParseIntOr0 skip))⟩⟩
    ∧ jsParseIntOr0 none = 0
    ∧ (∀ s, jsParseInt s = none → jsParseIntOr0 (some s) = 0) := by
  refine ⟨?_, ?_, rfl, ?_⟩
  · simp [listHandler, hreg]
  · simp [listHandler, hreg]
  · intro s hs
    simp [jsParseIntOr0, hs]

/-- C9 (witness): the coercion theorem at the absent-filter List request with
`limit="7"` and absent `skip`, plus the default-0 clauses. -/
theorem C9_limit_skip_coercion_witness :
    regLookup [("db", "conn")] "db" = some "conn"
    ∧ (listHandler [("db", "conn")] "db" none (some "7") none
        = .ok ⟨200, some ⟨[], [],
            objInsert (objInsert [] "limit" (.num (jsParseIntOr0 (some "7")))) "skip"
              (.num (jsParseIntOr0 none))⟩⟩
      ∧ jsParseIntOr0 none = 0) :=
  ⟨rfl,
    (C9_limit_skip_coercion [("db", "conn")] "db" "conn" (some "7") none ⟨[], [], []⟩
      rfl).1,
    (C9_limit_skip_coercion [("db", "conn")] "db" "conn" (some "7") none ⟨[], [], []⟩
      rfl).2.2.1⟩

/-- C10: a List request on a connected database whose `filter` parameter is
present but fails to parse as URL-encoded JSON is answered 500 (the parse
throw is caught by the route's catch-all), and no backend query is issued
(`findCall = none`). -/
theorem C10_invalid_filter_500_no_query (registry : Registry) (dbName conn : String)
    (limit skip : Option String)
    (hreg : regLookup registry dbName = some conn) :
    listHandler registry dbName (some (.error ())) limit skip = .ok ⟨500, none⟩ := by
  simp [listHandler, hreg]

/-- C10 (witness): the invalid-filter theorem at a concrete connected
registry. -/
theorem C10_invalid_filter_500_no_query_witness :
    regLookup [("db", "conn")] "db" = some "conn"
    ∧ listHandler [("db", "conn")] "db" (some (.error ())) (some "3") none
      = .ok ⟨500, none⟩ :=
  ⟨rfl, C10_invalid_filter_500_no_query [("db", "conn")] "db" "conn" (some "3") none rfl⟩
